import Mathlib

/-!
Shallow embedding of the ticket-market admission-control core
(`src/convex/users.ts`): the Convex tables `events`, `tickets`, `waitingList`
and the scheduler queue become an explicit `DBState`; each handler becomes a
function over that state.  Mutations are state-threading functions
`DBState → DBState × Except DbError _` in which a thrown error yields the
state at the point of the throw; queries are pure `Except DbError _`.
Timestamps (`Date.now()`) are `Nat`; `totalTickets`, `price`, `eventDate`
(JavaScript numbers) are `Int` so that unclamped subtraction is faithful.
-/

/-- Ticket status. The constants module (`convex/constants.ts`) is not under
`src/`; the statuses `valid` and `used` appear literally in `updateEvent`'s
filter, and the spec treats a ticket with status in VALID or USED as a
permanently consumed unit; other statuses are represented by the remaining
constructors. -/
inductive TicketStatus where
  | valid
  | used
  | refunded
  | cancelled
deriving DecidableEq, Repr

/-- Waiting-list status, per `WAITING_LIST_STATUS` (spec section 3:
WAITING, OFFERED, EXPIRED, PURCHASED). -/
inductive WLStatus where
  | waiting
  | offered
  | expired
  | purchased
deriving DecidableEq, Repr

/-- An `events` row (the fields `updateEvent` and the availability queries
touch). -/
structure Event where
  name : String
  description : String
  location : String
  eventDate : Int
  price : Int
  totalTickets : Int
  userId : String
deriving DecidableEq, Repr

/-- A `tickets` row (only the fields the surveyed code reads). -/
structure Ticket where
  eventId : Nat
  status : TicketStatus
deriving DecidableEq, Repr

/-- A `waitingList` row. `offerExpiresAt` is optional, as in the schema. -/
structure WaitingListEntry where
  id : Nat
  eventId : Nat
  userId : String
  status : WLStatus
  offerExpiresAt : Option Nat
deriving DecidableEq, Repr

/-- A task registered through `ctx.scheduler.runAfter(delay,
internal.waitingList.expireOffer, {waitingListId, eventId})`. -/
structure ScheduledTask where
  delay : Nat
  waitingListId : Nat
  eventId : Nat
deriving DecidableEq, Repr

/-- The database plus scheduler state visible to the handlers. -/
structure DBState where
  events : List (Nat × Event)
  tickets : List Ticket
  waitingList : List WaitingListEntry
  scheduled : List ScheduledTask
  nextWLId : Nat
deriving DecidableEq, Repr

/-- Errors thrown by the handlers. -/
inductive DbError where
  | eventNotFound
  | alreadyQueued
  | capacityReduction (sold : Nat)
deriving DecidableEq, Repr

/-- `ctx.db.get(eventId)`. -/
def lookupEvent (s : DBState) (eId : Nat) : Option Event :=
  s.events.lookup eId

/-- `purchasedCount` as computed by `getEventAvailability` and
`checkAvailability`: collect the event's tickets, keep those with status
`valid` or `used`, count. -/
def purchasedCount (s : DBState) (eId : Nat) : Nat :=
  ((s.tickets.filter (fun t => t.eventId == eId)).filter
    (fun t => t.status == TicketStatus.valid || t.status == TicketStatus.used)).length

/-- `activeOffers` as computed by `getEventAvailability` and
`checkAvailability`: collect the event's OFFERED entries, keep those with
`(offerExpiresAt ?? 0) > now`, count. -/
def activeOffers (s : DBState) (eId : Nat) (now : Nat) : Nat :=
  ((s.waitingList.filter
      (fun e => e.eventId == eId && e.status == WLStatus.offered)).filter
    (fun e => e.offerExpiresAt.getD 0 > now)).length

/-- Result record of `getEventAvailability`. -/
structure Availability where
  isSoldOut : Bool
  totalTickets : Int
  purchasedCount : Nat
  activeOffers : Nat
  remainingTickets : Int
deriving DecidableEq, Repr

/-- `getEventAvailability` (`src/convex/users.ts` lines 119-161). -/
def getEventAvailability (s : DBState) (eId : Nat) (now : Nat) :
    Except DbError Availability :=
  match lookupEvent s eId with
  | none => .error .eventNotFound
  | some event =>
      let p := purchasedCount s eId
      let a := activeOffers s eId now
      let totalReserved : Int := (p : Int) + (a : Int)
      .ok { isSoldOut := totalReserved ≥ event.totalTickets
          , totalTickets := event.totalTickets
          , purchasedCount := p
          , activeOffers := a
          , remainingTickets := max 0 (event.totalTickets - totalReserved) }

/-- Result record of `checkAvailability`. -/
structure CheckResult where
  available : Bool
  availableSpots : Int
  totalTickets : Int
  purchasedCount : Nat
  activeOffers : Nat
deriving DecidableEq, Repr

/-- `checkAvailability` (`src/convex/users.ts` lines 164-206).  Note
`availableSpots` is the raw difference, with no clamping at zero. -/
def checkAvailability (s : DBState) (eId : Nat) (now : Nat) :
    Except DbError CheckResult :=
  match lookupEvent s eId with
  | none => .error .eventNotFound
  | some event =>
      let p := purchasedCount s eId
      let a := activeOffers s eId now
      let availableSpots : Int := event.totalTickets - ((p : Int) + (a : Int))
      .ok { available := availableSpots > 0
          , availableSpots := availableSpots
          , totalTickets := event.totalTickets
          , purchasedCount := p
          , activeOffers := a }

/-- The fields `updateEvent` patches (its args minus `eventId`). -/
structure EventUpdates where
  name : String
  description : String
  location : String
  eventDate : Int
  price : Int
  totalTickets : Int
deriving DecidableEq, Repr

/-- Apply `ctx.db.patch(eventId, updates)` to the events table. -/
def patchEvent (events : List (Nat × Event)) (eId : Nat) (u : EventUpdates) :
    List (Nat × Event) :=
  events.map (fun p =>
    if p.1 == eId then
      (p.1, { p.2 with
                name := u.name
              , description := u.description
              , location := u.location
              , eventDate := u.eventDate
              , price := u.price
              , totalTickets := u.totalTickets })
    else p)

/-- `updateEvent` (`src/convex/users.ts` lines 41-76): refuse to shrink
`totalTickets` below the count of sold (valid or used) tickets, else patch. -/
def updateEvent (s : DBState) (eId : Nat) (u : EventUpdates) :
    DBState × Except DbError Nat :=
  match lookupEvent s eId with
  | none => (s, .error .eventNotFound)
  | some _ =>
      let soldTickets := s.tickets.filter
        (fun t => t.eventId == eId &&
          (t.status == TicketStatus.valid || t.status == TicketStatus.used))
      if (u.totalTickets : Int) < (soldTickets.length : Int) then
        (s, .error (.capacityReduction soldTickets.length))
      else
        ({ s with events := patchEvent s.events eId u }, .ok eId)

/-- Result record of `joinWaitingList`. -/
structure JoinResult where
  success : Bool
  status : WLStatus
  message : String
deriving DecidableEq, Repr

/-- `joinWaitingList` (`src/convex/users.ts` lines 209-285).  `ttl` is
`DURATIONS.TICKET_OFFER` from the constants module (the spec's OFFER_TTL),
kept as a parameter since the constants file is not under `src/`.  The
duplicate-entry guard runs first, then event existence, then the
availability check; the OFFERED path inserts the entry and schedules the
`expireOffer` task, the other path inserts a WAITING entry with no expiry. -/
def joinWaitingList (ttl : Nat) (s : DBState) (eId : Nat) (uId : String)
    (now : Nat) : DBState × Except DbError JoinResult :=
  match s.waitingList.find?
      (fun e => e.userId == uId && e.eventId == eId &&
        e.status != WLStatus.expired) with
  | some _ => (s, .error .alreadyQueued)
  | none =>
    match lookupEvent s eId with
    | none => (s, .error .eventNotFound)
    | some _ =>
      match checkAvailability s eId now with
      | .error err => (s, .error err)
      | .ok chk =>
        if chk.available then
          let entry : WaitingListEntry :=
            ⟨s.nextWLId, eId, uId, WLStatus.offered, some (now + ttl)⟩
          ({ s with
               waitingList := s.waitingList ++ [entry]
             , scheduled := s.scheduled ++ [⟨ttl, s.nextWLId, eId⟩]
             , nextWLId := s.nextWLId + 1 },
           .ok ⟨true, WLStatus.offered,
             "Ticket offered - you have " ++ toString (ttl / (60 * 1000)) ++
               " minutes to purchase"⟩)
        else
          let entry : WaitingListEntry :=
            ⟨s.nextWLId, eId, uId, WLStatus.waiting, none⟩
          ({ s with
               waitingList := s.waitingList ++ [entry]
             , nextWLId := s.nextWLId + 1 },
           .ok ⟨true, WLStatus.waiting,
             "Added to waiting list - you\x27ll be notified when a ticket becomes available"⟩)

/-- Modelled from the spec: `expireOffer` lives in `convex/waitingList.ts`,
which is not under `src/`; only its registration (`internal.waitingList.expireOffer`)
appears in the surveyed code.  Per spec section 4.3: load the entry; if its
status is no longer OFFERED, no-op (idempotency); otherwise transition it to
EXPIRED, then attempt promotion of the earliest still-WAITING entry for the
event if the re-run capacity check permits (same allocation rule as the join's
OFFERED path). -/
def expireOffer (ttl : Nat) (s : DBState) (wlId : Nat) (eId : Nat)
    (now : Nat) : DBState :=
  match s.waitingList.find? (fun e => e.id == wlId) with
  | none => s
  | some entry =>
    if entry.status != WLStatus.offered then s
    else
      let s1 : DBState :=
        { s with waitingList := s.waitingList.map (fun e =>
            if e.id == wlId then { e with status := WLStatus.expired } else e) }
      match checkAvailability s1 eId now with
      | .error _ => s1
      | .ok chk =>
        if chk.available then
          match (s1.waitingList.filter
              (fun e => e.eventId == eId && e.status == WLStatus.waiting)).head? with
          | none => s1
          | some w =>
            { s1 with
                waitingList := s1.waitingList.map (fun e =>
                  if e.id == w.id then
                    { e with status := WLStatus.offered
                           , offerExpiresAt := some (now + ttl) }
                  else e)
              , scheduled := s1.scheduled ++ [⟨ttl, w.id, eId⟩] }
        else s1

/-- Spec-side purchased count (spec section 4.1): the count of the event's
tickets with status VALID or USED, written as one pass for comparison with
the code's two-stage filter. -/
def specPurchasedCount (s : DBState) (eId : Nat) : Nat :=
  (s.tickets.filter (fun t => t.eventId == eId &&
    (t.status == TicketStatus.valid || t.status == TicketStatus.used))).length

/-- Spec-side active-offer count (spec section 4.1): entries for the event
with status OFFERED and `offerExpiresAt` present and strictly greater than
`now` (an absent timestamp is simply not greater than anything). -/
def specActiveOfferCount (s : DBState) (eId : Nat) (now : Nat) : Nat :=
  (s.waitingList.filter (fun e => e.eventId == eId &&
    e.status == WLStatus.offered &&
    (match e.offerExpiresAt with
     | some t => decide (t > now)
     | none => false))).length

/-- Concrete event with zero capacity (oversold fixture). -/
def evC4 : Event := ⟨"concert", "desc", "loc", 0, 50, 0, "owner"⟩

/-- Oversold state: capacity 0 but one valid ticket already issued. -/
def sC4 : DBState := ⟨[(0, evC4)], [⟨0, TicketStatus.valid⟩], [], [], 0⟩

/-- Concrete event with capacity 2 (spec section 8 concrete case). -/
def evC5 : Event := ⟨"concert", "desc", "loc", 0, 50, 2, "owner"⟩

/-- State for the spec section 8 concrete case: capacity 2, one valid
ticket, one OFFERED entry expiring at time 200. -/
def sC5 : DBState :=
  ⟨[(0, evC5)], [⟨0, TicketStatus.valid⟩],
   [⟨0, 0, "u", WLStatus.offered, some 200⟩], [], 1⟩

/-- Concrete event with capacity 1. -/
def ev9 : Event := ⟨"concert", "desc", "loc", 0, 50, 1, "owner"⟩

/-- Fresh state: one event with capacity 1, nothing sold, empty queue. -/
def s9 : DBState := ⟨[(0, ev9)], [], [], [], 0⟩

/-- Completely empty state (no events at all). -/
def s7 : DBState := ⟨[], [], [], [], 0⟩

/-- Update payload shrinking `totalTickets` to 0. -/
def uC8a : EventUpdates := ⟨"n", "d", "l", 1, 60, 0⟩

/-- Update payload raising `totalTickets` to 5. -/
def uC8b : EventUpdates := ⟨"n", "d", "l", 1, 60, 5⟩

/-- An OFFERED entry whose `offerExpiresAt` field is absent. -/
def entry10 : WaitingListEntry := ⟨5, 0, "v", WLStatus.offered, none⟩

/-! ## Supporting lemmas -/

/-- The code's two-stage purchased-ticket count agrees with the spec's
single-pass count. -/
theorem purchasedCount_eq_spec (s : DBState) (eId : Nat) :
    purchasedCount s eId = specPurchasedCount s eId := by
  unfold purchasedCount specPurchasedCount
  rw [List.filter_filter]
  congr 1
  apply List.filter_congr
  intro t _
  exact Bool.and_comm _ _

/-- The code's two-stage active-offer count (with `offerExpiresAt ?? 0`)
agrees with the spec's single-pass count (absent expiry never counted). -/
theorem activeOffers_eq_spec (s : DBState) (eId : Nat) (now : Nat) :
    activeOffers s eId now = specActiveOfferCount s eId now := by
  unfold activeOffers specActiveOfferCount
  rw [List.filter_filter]
  congr 1
  apply List.filter_congr
  intro e _
  cases h : e.offerExpiresAt with
  | none => simp [h]
  | some t =>
      simp only [h, Option.getD_some]
      cases hn : decide (t > now) <;> simp [hn, Bool.and_comm]

/-- If every entry for the pair is EXPIRED, the duplicate-guard query finds
nothing. -/
theorem find_active_eq_none (s : DBState) (eId : Nat) (uId : String)
    (hno : ∀ e ∈ s.waitingList,
      e.userId = uId → e.eventId = eId → e.status = WLStatus.expired) :
    s.waitingList.find? (fun e => e.userId == uId && e.eventId == eId &&
      e.status != WLStatus.expired) = none := by
  rw [List.find?_eq_none]
  intro x hx h
  simp only [Bool.and_eq_true, beq_iff_eq, bne_iff_ne, ne_eq] at h
  exact h.2 (hno x hx h.1.1 h.1.2)

/-- `checkAvailability` at an existing event, unfolded. -/
theorem checkAvailability_some (s : DBState) (eId : Nat) (now : Nat)
    (ev : Event) (hev : lookupEvent s eId = some ev) :
    checkAvailability s eId now = Except.ok
      { available := decide (ev.totalTickets -
          ((purchasedCount s eId : Int) + (activeOffers s eId now : Int)) > 0)
      , availableSpots := ev.totalTickets -
          ((purchasedCount s eId : Int) + (activeOffers s eId now : Int))
      , totalTickets := ev.totalTickets
      , purchasedCount := purchasedCount s eId
      , activeOffers := activeOffers s eId now } := by
  unfold checkAvailability
  rw [hev]

/-- Patching the events table then looking up the patched id yields the
patched record. -/
theorem lookup_patchEvent (events : List (Nat × Event)) (eId : Nat)
    (u : EventUpdates) :
    (patchEvent events eId u).lookup eId = (events.lookup eId).map
      (fun ev => { ev with
                     name := u.name
                   , description := u.description
                   , location := u.location
                   , eventDate := u.eventDate
                   , price := u.price
                   , totalTickets := u.totalTickets }) := by
  induction events with
  | nil => rfl
  | cons hd tl ih =>
      obtain ⟨k, v⟩ := hd
      unfold patchEvent at ih ⊢
      by_cases hk : k = eId
      · subst hk
        simp [List.lookup_cons]
      · have h1 : (k == eId) = false := by simp [hk]
        have h2 : (eId == k) = false := by simp [Ne.symm hk]
        simpa [List.lookup_cons, h1, h2, hk] using ih

/-! ## Claims -/

/-- C1: a `joinWaitingList(eventId, userId)` call fails with AlreadyQueued
exactly when some waitingList entry for the pair has a status other than
EXPIRED; when every entry for the pair is EXPIRED (or none exists) and the
event exists, the call does not fail with AlreadyQueued and inserts a new
entry for the pair. -/
theorem joinWaitingList_duplicate_guard (ttl : Nat) (s : DBState) (eId : Nat)
    (uId : String) (now : Nat) :
    ((∃ e ∈ s.waitingList, e.userId = uId ∧ e.eventId = eId ∧
        e.status ≠ WLStatus.expired) →
      joinWaitingList ttl s eId uId now = (s, Except.error DbError.alreadyQueued))
    ∧ ((∀ e ∈ s.waitingList,
          e.userId = uId → e.eventId = eId → e.status = WLStatus.expired) →
        (lookupEvent s eId).isSome →
        (joinWaitingList ttl s eId uId now).2 ≠
            Except.error DbError.alreadyQueued ∧
          ∃ entry : WaitingListEntry,
            (joinWaitingList ttl s eId uId now).1.waitingList =
                s.waitingList ++ [entry] ∧
              entry.userId = uId ∧ entry.eventId = eId) := by
  constructor
  · rintro ⟨e, he, h1, h2, h3⟩
    have hfind : (s.waitingList.find? (fun e => e.userId == uId &&
        e.eventId == eId && e.status != WLStatus.expired)).isSome := by
      rw [List.find?_isSome]
      exact ⟨e, he, by simp [h1, h2, h3]⟩
    obtain ⟨e', he'⟩ := Option.isSome_iff_exists.mp hfind
    unfold joinWaitingList
    rw [he']
  · intro hno hev
    obtain ⟨ev, hev'⟩ := Option.isSome_iff_exists.mp hev
    have hfind := find_active_eq_none s eId uId hno
    unfold joinWaitingList
    rw [hfind, hev', checkAvailability_some s eId now ev hev']
    by_cases hP : ev.totalTickets -
        ((purchasedCount s eId : Int) + (activeOffers s eId now : Int)) > 0
    · rw [decide_eq_true hP]
      exact ⟨by simp, ⟨s.nextWLId, eId, uId, WLStatus.offered, some (now + ttl)⟩,
        rfl, rfl, rfl⟩
    · rw [decide_eq_false hP]
      exact ⟨by simp, ⟨s.nextWLId, eId, uId, WLStatus.waiting, none⟩,
        rfl, rfl, rfl⟩

theorem joinWaitingList_duplicate_guard_witness :
    joinWaitingList 1 sC5 0 "u" 0 = (sC5, Except.error DbError.alreadyQueued) ∧
      (joinWaitingList 1 s9 0 "u" 0).2 ≠ Except.error DbError.alreadyQueued := by
  constructor
  · exact (joinWaitingList_duplicate_guard 1 sC5 0 "u" 0).1
      ⟨⟨0, 0, "u", WLStatus.offered, some 200⟩, by decide, rfl, rfl, by decide⟩
  · exact ((joinWaitingList_duplicate_guard 1 s9 0 "u" 0).2
      (by simp [s9]) (by decide)).1

/-- C2: for an existing event, `getEventAvailability` returns
`purchasedCount` = number of the event's tickets with status valid or used,
`activeOffers` = number of the event's entries with status OFFERED whose
`offerExpiresAt` is strictly greater than `now`, `remainingTickets` =
max(0, totalTickets - (purchasedCount + activeOffers)) and `isSoldOut` =
(purchasedCount + activeOffers) ≥ totalTickets. -/
theorem getEventAvailability_formulas (s : DBState) (eId : Nat) (now : Nat)
    (ev : Event) (hev : lookupEvent s eId = some ev) :
    getEventAvailability s eId now = Except.ok
      { isSoldOut := decide (((specPurchasedCount s eId : Int) +
            (specActiveOfferCount s eId now : Int)) ≥ ev.totalTickets)
      , totalTickets := ev.totalTickets
      , purchasedCount := specPurchasedCount s eId
      , activeOffers := specActiveOfferCount s eId now
      , remainingTickets := max 0 (ev.totalTickets -
          ((specPurchasedCount s eId : Int) +
            (specActiveOfferCount s eId now : Int))) } := by
  unfold getEventAvailability
  rw [hev]
  simp only [purchasedCount_eq_spec, activeOffers_eq_spec]

theorem getEventAvailability_formulas_witness :
    lookupEvent sC5 0 = some evC5 ∧
      getEventAvailability sC5 0 100 = Except.ok
        { isSoldOut := true, totalTickets := 2, purchasedCount := 1,
          activeOffers := 1, remainingTickets := 0 } := by
  refine ⟨rfl, ?_⟩
  rw [getEventAvailability_formulas sC5 0 100 evC5 rfl]
  rfl

/-- C3: when the preconditions of `joinWaitingList` hold (event exists, no
non-EXPIRED entry for the pair): if purchasedCount + activeOffers <
totalTickets the call inserts an entry with status OFFERED and
`offerExpiresAt = now + OFFER_TTL` and schedules an `expireOffer` task for
that entry firing after OFFER_TTL; otherwise it inserts a WAITING entry
with no `offerExpiresAt` and schedules nothing. -/
theorem joinWaitingList_insert_paths (ttl : Nat) (s : DBState) (eId : Nat)
    (uId : String) (now : Nat) (ev : Event)
    (hev : lookupEvent s eId = some ev)
    (hno : ∀ e ∈ s.waitingList,
      e.userId = uId → e.eventId = eId → e.status = WLStatus.expired) :
    (((purchasedCount s eId : Int) + (activeOffers s eId now : Int) <
        ev.totalTickets) →
      joinWaitingList ttl s eId uId now =
        ({ s with
             waitingList := s.waitingList ++
               [⟨s.nextWLId, eId, uId, WLStatus.offered, some (now + ttl)⟩]
           , scheduled := s.scheduled ++ [⟨ttl, s.nextWLId, eId⟩]
           , nextWLId := s.nextWLId + 1 },
         Except.ok ⟨true, WLStatus.offered,
           "Ticket offered - you have " ++ toString (ttl / (60 * 1000)) ++
             " minutes to purchase"⟩))
    ∧ ((ev.totalTickets ≤
          (purchasedCount s eId : Int) + (activeOffers s eId now : Int)) →
      joinWaitingList ttl s eId uId now =
        ({ s with
             waitingList := s.waitingList ++
               [⟨s.nextWLId, eId, uId, WLStatus.waiting, none⟩]
           , nextWLId := s.nextWLId + 1 },
         Except.ok ⟨true, WLStatus.waiting,
           "Added to waiting list - you\x27ll be notified when a ticket becomes available"⟩)) := by
  have hfind := find_active_eq_none s eId uId hno
  constructor
  · intro hlt
    have hP : ev.totalTickets -
        ((purchasedCount s eId : Int) + (activeOffers s eId now : Int)) > 0 :=
      sub_pos.mpr hlt
    unfold joinWaitingList
    rw [hfind, hev, checkAvailability_some s eId now ev hev, decide_eq_true hP]
    rfl
  · intro hge
    have hP : ¬ (ev.totalTickets -
        ((purchasedCount s eId : Int) + (activeOffers s eId now : Int)) > 0) :=
      not_lt.mpr (sub_nonpos.mpr hge)
    unfold joinWaitingList
    rw [hfind, hev, checkAvailability_some s eId now ev hev, decide_eq_false hP]
    rfl

theorem joinWaitingList_insert_paths_witness :
    joinWaitingList 60000 s9 0 "u" 7 =
      ({ s9 with
           waitingList := s9.waitingList ++
             [⟨s9.nextWLId, 0, "u", WLStatus.offered, some 60007⟩]
         , scheduled := s9.scheduled ++ [⟨60000, s9.nextWLId, 0⟩]
         , nextWLId := s9.nextWLId + 1 },
       Except.ok ⟨true, WLStatus.offered,
         "Ticket offered - you have " ++ toString (60000 / (60 * 1000)) ++
           " minutes to purchase"⟩) ∧
    joinWaitingList 60000 sC4 0 "w" 5 =
      ({ sC4 with
           waitingList := sC4.waitingList ++
             [⟨sC4.nextWLId, 0, "w", WLStatus.waiting, none⟩]
         , nextWLId := sC4.nextWLId + 1 },
       Except.ok ⟨true, WLStatus.waiting,
         "Added to waiting list - you\x27ll be notified when a ticket becomes available"⟩) := by
  constructor
  · exact (joinWaitingList_insert_paths 60000 s9 0 "u" 7 ev9 rfl
      (by simp [s9])).1 (by decide)
  · exact (joinWaitingList_insert_paths 60000 sC4 0 "w" 5 evC4 rfl
      (by simp [sC4])).2 (by decide)

/-- C4 counterexample: in the oversold state `sC4` (capacity 0, one valid
ticket) `checkAvailability` returns `availableSpots = -1`, which is negative
and differs from max(0, totalTickets - (purchasedCount + activeOffers)) = 0,
so `availableSpots` is not clamped as the claim states. -/
theorem checkAvailability_negative_spots :
    (checkAvailability sC4 0 0).map (fun r => r.availableSpots) =
        Except.ok (-1) ∧
      ((-1 : Int) < 0) ∧
      max 0 (evC4.totalTickets -
        ((purchasedCount sC4 0 : Int) + (activeOffers sC4 0 0 : Int))) = 0 := by
  refine ⟨rfl, by decide, by decide⟩

/-- C4 (amended): for every existing event, `checkAvailability` returns
`availableSpots` equal to the raw difference totalTickets - (purchasedCount
+ activeOffers), with no clamping, so it is negative whenever the reserved
count exceeds capacity; only `getEventAvailability` clamps at 0. -/
theorem checkAvailability_raw_spots (s : DBState) (eId : Nat) (now : Nat)
    (ev : Event) (hev : lookupEvent s eId = some ev) :
    checkAvailability s eId now = Except.ok
      { available := decide (ev.totalTickets -
            ((specPurchasedCount s eId : Int) +
              (specActiveOfferCount s eId now : Int)) > 0)
      , availableSpots := ev.totalTickets -
          ((specPurchasedCount s eId : Int) +
            (specActiveOfferCount s eId now : Int))
      , totalTickets := ev.totalTickets
      , purchasedCount := specPurchasedCount s eId
      , activeOffers := specActiveOfferCount s eId now } := by
  rw [checkAvailability_some s eId now ev hev]
  simp only [purchasedCount_eq_spec, activeOffers_eq_spec]

theorem checkAvailability_raw_spots_witness :
    lookupEvent sC4 0 = some evC4 ∧
      checkAvailability sC4 0 0 = Except.ok
        { available := false, availableSpots := -1, totalTickets := 0,
          purchasedCount := 1, activeOffers := 0 } := by
  refine ⟨rfl, ?_⟩
  rw [checkAvailability_raw_spots sC4 0 0 evC4 rfl]
  rfl

/-- C5: for the event with totalTickets = 2, one valid ticket and one
OFFERED entry expiring at 200 (future of now = 100), `checkAvailability`
returns available = false and availableSpots = 0; for any time strictly
after 200, once `expireOffer` has run on the entry, `checkAvailability`
returns availableSpots = 1. -/
theorem checkAvailability_concrete_case :
    ((checkAvailability sC5 0 100).map (fun r => (r.available, r.availableSpots)) =
        Except.ok (false, 0)) ∧
      ∀ ttl now', 200 < now' →
        (checkAvailability (expireOffer ttl sC5 0 0 now') 0 now').map
            (fun r => r.availableSpots) = Except.ok 1 := by
  refine ⟨rfl, ?_⟩
  intro ttl now' h
  rfl

theorem checkAvailability_concrete_case_witness :
    (200 : Nat) < 201 ∧
      (checkAvailability (expireOffer 1800000 sC5 0 0 201) 0 201).map
          (fun r => r.availableSpots) = Except.ok 1 :=
  ⟨by decide, checkAvailability_concrete_case.2 1800000 201 (by decide)⟩

/-- Equation lemma: the OFFERED path of `joinWaitingList`, given the guard
query is empty, the event exists and a spot is available. -/
theorem joinWaitingList_eq_offered (ttl : Nat) (s : DBState) (eId : Nat)
    (uId : String) (now : Nat) (ev : Event)
    (hf : s.waitingList.find? (fun e => e.userId == uId && e.eventId == eId &&
      e.status != WLStatus.expired) = none)
    (hev : lookupEvent s eId = some ev)
    (hP : ev.totalTickets -
      ((purchasedCount s eId : Int) + (activeOffers s eId now : Int)) > 0) :
    joinWaitingList ttl s eId uId now =
      ({ s with
           waitingList := s.waitingList ++
             [⟨s.nextWLId, eId, uId, WLStatus.offered, some (now + ttl)⟩]
         , scheduled := s.scheduled ++ [⟨ttl, s.nextWLId, eId⟩]
         , nextWLId := s.nextWLId + 1 },
       Except.ok ⟨true, WLStatus.offered,
         "Ticket offered - you have " ++ toString (ttl / (60 * 1000)) ++
           " minutes to purchase"⟩) := by
  unfold joinWaitingList
  rw [hf, hev, checkAvailability_some s eId now ev hev, decide_eq_true hP]
  rfl

/-- Equation lemma: the WAITING path of `joinWaitingList`, given the guard
query is empty, the event exists and no spot is available. -/
theorem joinWaitingList_eq_waiting (ttl : Nat) (s : DBState) (eId : Nat)
    (uId : String) (now : Nat) (ev : Event)
    (hf : s.waitingList.find? (fun e => e.userId == uId && e.eventId == eId &&
      e.status != WLStatus.expired) = none)
    (hev : lookupEvent s eId = some ev)
    (hP : ¬ (ev.totalTickets -
      ((purchasedCount s eId : Int) + (activeOffers s eId now : Int)) > 0)) :
    joinWaitingList ttl s eId uId now =
      ({ s with
           waitingList := s.waitingList ++
             [⟨s.nextWLId, eId, uId, WLStatus.waiting, none⟩]
         , nextWLId := s.nextWLId + 1 },
       Except.ok ⟨true, WLStatus.waiting,
         "Added to waiting list - you\x27ll be notified when a ticket becomes available"⟩) := by
  unfold joinWaitingList
  rw [hf, hev, checkAvailability_some s eId now ev hev, decide_eq_false hP]
  rfl

/-- C6: whenever `joinWaitingList` fails, the state is unchanged (no entry
inserted, nothing scheduled); whenever it succeeds, exactly one entry is
appended, and the `expireOffer` task is scheduled exactly when that entry is
OFFERED (entry and task together, never one without the other). -/
theorem joinWaitingList_no_partial_writes (ttl : Nat) (s : DBState)
    (eId : Nat) (uId : String) (now : Nat) :
    (∀ err, (joinWaitingList ttl s eId uId now).2 = Except.error err →
      (joinWaitingList ttl s eId uId now).1 = s)
    ∧ (∀ r, (joinWaitingList ttl s eId uId now).2 = Except.ok r →
      ∃ entry : WaitingListEntry,
        (joinWaitingList ttl s eId uId now).1.waitingList =
            s.waitingList ++ [entry] ∧
          ((entry.status = WLStatus.offered ∧
              (joinWaitingList ttl s eId uId now).1.scheduled =
                s.scheduled ++ [⟨ttl, entry.id, eId⟩]) ∨
            (entry.status = WLStatus.waiting ∧
              (joinWaitingList ttl s eId uId now).1.scheduled = s.scheduled))) := by
  cases hf : s.waitingList.find? (fun e => e.userId == uId &&
      e.eventId == eId && e.status != WLStatus.expired) with
  | some e =>
      have hj : joinWaitingList ttl s eId uId now =
          (s, Except.error DbError.alreadyQueued) := by
        unfold joinWaitingList
        rw [hf]
      rw [hj]
      exact ⟨fun err h => rfl, fun r h => Except.noConfusion h⟩
  | none =>
    cases hev : lookupEvent s eId with
    | none =>
        have hj : joinWaitingList ttl s eId uId now =
            (s, Except.error DbError.eventNotFound) := by
          unfold joinWaitingList
          rw [hf, hev]
        rw [hj]
        exact ⟨fun err h => rfl, fun r h => Except.noConfusion h⟩
    | some ev =>
        by_cases hP : ev.totalTickets -
            ((purchasedCount s eId : Int) + (activeOffers s eId now : Int)) > 0
        · rw [joinWaitingList_eq_offered ttl s eId uId now ev hf hev hP]
          exact ⟨fun err h => Except.noConfusion h, fun r h =>
            ⟨⟨s.nextWLId, eId, uId, WLStatus.offered, some (now + ttl)⟩,
              rfl, Or.inl ⟨rfl, rfl⟩⟩⟩
        · rw [joinWaitingList_eq_waiting ttl s eId uId now ev hf hev hP]
          exact ⟨fun err h => Except.noConfusion h, fun r h =>
            ⟨⟨s.nextWLId, eId, uId, WLStatus.waiting, none⟩,
              rfl, Or.inr ⟨rfl, rfl⟩⟩⟩

theorem joinWaitingList_no_partial_writes_witness :
    (joinWaitingList 1 sC5 0 "u" 0).1 = sC5 ∧
      ∃ entry : WaitingListEntry,
        (joinWaitingList 60000 s9 0 "u" 7).1.waitingList =
            s9.waitingList ++ [entry] ∧
          ((entry.status = WLStatus.offered ∧
              (joinWaitingList 60000 s9 0 "u" 7).1.scheduled =
                s9.scheduled ++ [⟨60000, entry.id, 0⟩]) ∨
            (entry.status = WLStatus.waiting ∧
              (joinWaitingList 60000 s9 0 "u" 7).1.scheduled = s9.scheduled)) :=
  ⟨(joinWaitingList_no_partial_writes 1 sC5 0 "u" 0).1 DbError.alreadyQueued rfl,
   (joinWaitingList_no_partial_writes 60000 s9 0 "u" 7).2
     ⟨true, WLStatus.offered,
       "Ticket offered - you have " ++ toString (60000 / (60 * 1000)) ++
         " minutes to purchase"⟩ rfl⟩

/-- C7: for an eventId with no event record (in a state whose waitingList
entries all reference existing events), `joinWaitingList`,
`checkAvailability` and `getEventAvailability` all fail with the
event-not-found error and leave the state unchanged. -/
theorem eventNotFound_behaviour (ttl : Nat) (s : DBState) (eId : Nat)
    (uId : String) (now : Nat)
    (hWF : ∀ e ∈ s.waitingList, (lookupEvent s e.eventId).isSome)
    (hnone : lookupEvent s eId = none) :
    joinWaitingList ttl s eId uId now = (s, Except.error DbError.eventNotFound) ∧
      checkAvailability s eId now = Except.error DbError.eventNotFound ∧
      getEventAvailability s eId now = Except.error DbError.eventNotFound := by
  have hfind : s.waitingList.find? (fun e => e.userId == uId &&
      e.eventId == eId && e.status != WLStatus.expired) = none := by
    rw [List.find?_eq_none]
    intro x hx hcontra
    simp only [Bool.and_eq_true, beq_iff_eq, bne_iff_ne, ne_eq] at hcontra
    have hxl := hWF x hx
    rw [hcontra.1.2, hnone] at hxl
    simp at hxl
  refine ⟨?_, ?_, ?_⟩
  · unfold joinWaitingList
    rw [hfind, hnone]
  · unfold checkAvailability
    rw [hnone]
  · unfold getEventAvailability
    rw [hnone]

theorem eventNotFound_behaviour_witness :
    joinWaitingList 1 s7 0 "u" 0 = (s7, Except.error DbError.eventNotFound) ∧
      checkAvailability s7 0 0 = Except.error DbError.eventNotFound ∧
      getEventAvailability s7 0 0 = Except.error DbError.eventNotFound :=
  eventNotFound_behaviour 1 s7 0 "u" 0 (by simp [s7]) rfl

/-- C8: for an existing event, `updateEvent` fails with the
capacity-reduction error exactly when the new `totalTickets` is strictly
below the current count of valid-or-used tickets; on failure the state is
unchanged, on success the event record is patched to the given fields. -/
theorem updateEvent_capacity_guard (s : DBState) (eId : Nat)
    (u : EventUpdates) (ev : Event) (hev : lookupEvent s eId = some ev) :
    ((updateEvent s eId u).2 =
        Except.error (DbError.capacityReduction (specPurchasedCount s eId)) ↔
      (u.totalTickets : Int) < (specPurchasedCount s eId : Int))
    ∧ ((u.totalTickets : Int) < (specPurchasedCount s eId : Int) →
        (updateEvent s eId u).1 = s)
    ∧ ((specPurchasedCount s eId : Int) ≤ u.totalTickets →
        (updateEvent s eId u).2 = Except.ok eId ∧
          lookupEvent (updateEvent s eId u).1 eId = some
            { ev with
                name := u.name
              , description := u.description
              , location := u.location
              , eventDate := u.eventDate
              , price := u.price
              , totalTickets := u.totalTickets } ∧
          (updateEvent s eId u).1.tickets = s.tickets ∧
          (updateEvent s eId u).1.waitingList = s.waitingList) := by
  by_cases hlt : (u.totalTickets : Int) < (specPurchasedCount s eId : Int)
  · have hu : updateEvent s eId u =
        (s, Except.error (DbError.capacityReduction (specPurchasedCount s eId))) := by
      unfold updateEvent
      rw [hev]
      split
      · next heq => exact Option.noConfusion heq
      · dsimp only []
        split
        · rfl
        · next hc => exact absurd hlt hc
    rw [hu]
    exact ⟨⟨fun _ => hlt, fun _ => rfl⟩, fun _ => rfl,
      fun hge => absurd hlt (not_lt.mpr hge)⟩
  · have hu : updateEvent s eId u =
        ({ s with events := patchEvent s.events eId u }, Except.ok eId) := by
      unfold updateEvent
      rw [hev]
      split
      · next heq => exact Option.noConfusion heq
      · dsimp only []
        split
        · next hc => exact absurd hc hlt
        · rfl
    rw [hu]
    refine ⟨⟨fun h => Except.noConfusion h, fun h => absurd h hlt⟩,
      fun h => absurd h hlt, fun hge => ⟨rfl, ?_, rfl, rfl⟩⟩
    have hev2 : List.lookup eId s.events = some ev := hev
    show (patchEvent s.events eId u).lookup eId = some _
    rw [lookup_patchEvent, hev2]
    rfl

theorem updateEvent_capacity_guard_witness :
    (updateEvent sC4 0 uC8a).2 =
        Except.error (DbError.capacityReduction (specPurchasedCount sC4 0)) ∧
      (updateEvent sC4 0 uC8b).2 = Except.ok 0 :=
  ⟨(updateEvent_capacity_guard sC4 0 uC8a evC4 rfl).1.mpr (by decide),
   ((updateEvent_capacity_guard sC4 0 uC8b evC4 rfl).2.2 (by decide)).1⟩

/-- C9: every successful `joinWaitingList` call returns a record whose
status equals the status of the entry it inserted, and on the OFFERED path
the returned message contains the offer TTL in minutes (OFFER_TTL divided
by 60000). -/
theorem joinWaitingList_result_mirrors (ttl : Nat) (s : DBState) (eId : Nat)
    (uId : String) (now : Nat) (r : JoinResult)
    (h : (joinWaitingList ttl s eId uId now).2 = Except.ok r) :
    ∃ entry : WaitingListEntry,
      (joinWaitingList ttl s eId uId now).1.waitingList =
          s.waitingList ++ [entry] ∧
        r.status = entry.status ∧
        (r.status = WLStatus.offered →
          ∃ pre post, r.message =
            pre ++ toString (ttl / (60 * 1000)) ++ post) := by
  cases hf : s.waitingList.find? (fun e => e.userId == uId &&
      e.eventId == eId && e.status != WLStatus.expired) with
  | some e =>
      have hj : joinWaitingList ttl s eId uId now =
          (s, Except.error DbError.alreadyQueued) := by
        unfold joinWaitingList
        rw [hf]
      rw [hj] at h
      exact Except.noConfusion h
  | none =>
    cases hev : lookupEvent s eId with
    | none =>
        have hj : joinWaitingList ttl s eId uId now =
            (s, Except.error DbError.eventNotFound) := by
          unfold joinWaitingList
          rw [hf, hev]
        rw [hj] at h
        exact Except.noConfusion h
    | some ev =>
        by_cases hP : ev.totalTickets -
            ((purchasedCount s eId : Int) + (activeOffers s eId now : Int)) > 0
        · rw [joinWaitingList_eq_offered ttl s eId uId now ev hf hev hP] at h ⊢
          injection h with h'
          refine ⟨⟨s.nextWLId, eId, uId, WLStatus.offered, some (now + ttl)⟩,
            rfl, ?_, ?_⟩
          · rw [← h']
          · intro _
            exact ⟨"Ticket offered - you have ", " minutes to purchase",
              by rw [← h']⟩
        · rw [joinWaitingList_eq_waiting ttl s eId uId now ev hf hev hP] at h ⊢
          injection h with h'
          refine ⟨⟨s.nextWLId, eId, uId, WLStatus.waiting, none⟩,
            rfl, ?_, ?_⟩
          · rw [← h']
          · intro hcontra
            rw [← h'] at hcontra
            exact WLStatus.noConfusion hcontra

theorem joinWaitingList_result_mirrors_witness :
    ∃ entry : WaitingListEntry,
      (joinWaitingList 60000 s9 0 "u" 7).1.waitingList =
          s9.waitingList ++ [entry] ∧
        WLStatus.offered = entry.status ∧
        (WLStatus.offered = WLStatus.offered →
          ∃ pre post,
            "Ticket offered - you have " ++ toString (60000 / (60 * 1000)) ++
                " minutes to purchase" =
              pre ++ toString (60000 / (60 * 1000)) ++ post) :=
  joinWaitingList_result_mirrors 60000 s9 0 "u" 7
    ⟨true, WLStatus.offered,
      "Ticket offered - you have " ++ toString (60000 / (60 * 1000)) ++
        " minutes to purchase"⟩ rfl

/-- C10: an OFFERED waitingList entry whose `offerExpiresAt` is absent is
never counted as an active offer (the missing timestamp reads as 0, not
greater than any `now : Nat`), so prepending such an entry changes neither
`getEventAvailability` nor `checkAvailability`. -/
theorem missing_expiry_not_counted (s : DBState) (eId : Nat) (now : Nat)
    (entry : WaitingListEntry)
    (hstat : entry.status = WLStatus.offered)
    (hexp : entry.offerExpiresAt = none) :
    getEventAvailability { s with waitingList := entry :: s.waitingList } eId now =
        getEventAvailability s eId now ∧
      checkAvailability { s with waitingList := entry :: s.waitingList } eId now =
        checkAvailability s eId now := by
  have ha : activeOffers { s with waitingList := entry :: s.waitingList } eId now =
      activeOffers s eId now := by
    unfold activeOffers
    by_cases h1 : (entry.eventId == eId && entry.status == WLStatus.offered) = true
    · simp [List.filter_cons, h1, hexp]
    · simp [List.filter_cons, h1]
  have hl : lookupEvent { s with waitingList := entry :: s.waitingList } eId =
      lookupEvent s eId := rfl
  have hp : purchasedCount { s with waitingList := entry :: s.waitingList } eId =
      purchasedCount s eId := rfl
  constructor
  · unfold getEventAvailability
    rw [hl, hp, ha]
  · unfold checkAvailability
    rw [hl, hp, ha]

theorem missing_expiry_not_counted_witness :
    entry10.status = WLStatus.offered ∧ entry10.offerExpiresAt = none ∧
      getEventAvailability { sC5 with waitingList := entry10 :: sC5.waitingList } 0 100 =
          getEventAvailability sC5 0 100 ∧
        checkAvailability { sC5 with waitingList := entry10 :: sC5.waitingList } 0 100 =
          checkAvailability sC5 0 100 :=
  ⟨rfl, rfl, missing_expiry_not_counted sC5 0 100 entry10 rfl rfl⟩
